import Mathlib

/-!
Verification of the SERP extractor (src/serp_extractor.js) against its
natural-language specification.  Each definition below is a shallow
embedding of the corresponding JavaScript function; stochastic choices
(Math.random) are passed in explicitly, and the DOM / network are
represented by explicit inputs (href lists, per-attempt oracles).
-/

/-- JavaScript `String.prototype.includes`: `charsMatch pat l` checks that
`pat` occurs at the very front of `l`. -/
def charsMatch : List Char → List Char → Bool
  | [], _ => true
  | _ :: _, [] => false
  | p :: ps, c :: cs => p == c && charsMatch ps cs

/-- `charsFind pat l` checks that `pat` occurs somewhere inside `l`. -/
def charsFind (pat : List Char) : List Char → Bool
  | [] => charsMatch pat []
  | c :: cs => charsMatch pat (c :: cs) || charsFind pat cs

/-- JavaScript `s.includes(pat)` (case-sensitive substring test). -/
def jsIncludes (s pat : String) : Bool := charsFind pat.data s.data

/-- JavaScript `s.startsWith(pre)`. -/
def strStartsWith (s pre : String) : Bool := charsMatch pre.data s.data

/-- The URL filter of the results-page `page.evaluate` block
(src/serp_extractor.js:684-691): the href must be a non-empty string,
start with `http`, and not contain any of the excluded substrings. -/
def keepUrl (url : String) : Bool :=
  url != "" && strStartsWith url "http" &&
    !(jsIncludes url "google.com") && !(jsIncludes url "youtube.com") &&
    !(jsIncludes url "maps.google.com") && !(jsIncludes url "translate.google.com")

/-- URL extraction from the matched anchor hrefs
(src/serp_extractor.js:681-692): `slice(0, maxResults*2)`, filter,
`slice(0, maxResults)`. -/
def extractUrls (hrefs : List String) (maxResults : Nat) : List String :=
  ((hrefs.take (maxResults * 2)).filter keepUrl).take maxResults

/-- A third-party URL that merely mentions google.com in its path. -/
def thirdPartyUrl : String := "https://example.com/review-of-google.com-services"

/-- Configuration flag `randomBehaviors.sometimesMisspell`
(src/serp_extractor.js:8). -/
def sometimesMisspell : Bool := true

/-- Configuration flag `randomBehaviors.sometimesCorrect`
(src/serp_extractor.js:9). -/
def sometimesCorrect : Bool := true

/-- The adjacent-key substitution table of `typeHumanLike`
(src/serp_extractor.js:243-247). -/
def typosMap : Char → Option Char
  | 'a' => some 'q'
  | 'e' => some 'r'
  | 'i' => some 'o'
  | 'o' => some 'p'
  | 'u' => some 'y'
  | 's' => some 'a'
  | 'd' => some 's'
  | 'f' => some 'd'
  | 'g' => some 'f'
  | 'h' => some 'g'
  | 'z' => some 'x'
  | 'x' => some 'c'
  | 'c' => some 'v'
  | 'v' => some 'b'
  | 'b' => some 'n'
  | _ => none

/-- The random draws consumed by one `typeHumanLike` invocation:
`misspellRoll` models `Math.random() < 0.1` (probability 0.1),
`typoIndex` models `Math.floor(Math.random() * textArray.length)`, and
`correctRoll` models `Math.random() < 0.8` (probability 0.8). -/
structure TypoRandom where
  misspellRoll : Bool
  typoIndex : Nat
  correctRoll : Bool

/-- Final content of the search field after `typeHumanLike`
(src/serp_extractor.js:225-282).  The field is first cleared; if the
misspell branch fires, one character is replaced by its adjacent key and
the typo text is typed; the correction branch (select-all then retype)
restores the intended text only when `correctRoll` fires.  `none` models
the TypeError thrown when `textArray[randomIndex]` is `undefined`
(empty text). -/
def typeHumanLike (text : String) (r : TypoRandom) : Option String :=
  if sometimesMisspell && r.misspellRoll then
    match text.data.get? r.typoIndex with
    | none => none
    | some orig =>
      match typosMap orig.toLower with
      | some t =>
        if sometimesCorrect && r.correctRoll then some text
        else some (String.mk (text.data.set r.typoIndex t))
      | none => some text
  else some text

/-- Bot-challenge detection over the loaded results page
(src/serp_extractor.js:655): a case-sensitive `includes` test against
the three literal terms. -/
def challengeDetected (content : String) : Bool :=
  jsIncludes content "reCAPTCHA" || jsIncludes content "robot" ||
    jsIncludes content "captcha"

/-- Character-wise lower-casing of a string (used to express the spec's
case-insensitive reading of the challenge test). -/
def strLower (s : String) : String := String.mk (s.data.map Char.toLower)

/-- Modelled from the spec: the spec describes challenge detection as a
case-insensitive substring match on challenge-related terms; this
definition follows the spec wording and is compared against the
case-sensitive `challengeDetected` taken from the source. -/
def challengeIndicatorSpecCI (content : String) : Bool :=
  jsIncludes (strLower content) "recaptcha" || jsIncludes (strLower content) "robot" ||
    jsIncludes (strLower content) "captcha"

/-- Failure modes of the Navigation Controller relevant to the results
page; the `challenge` constructor is distinguishable from all other
failures (src/serp_extractor.js:658 throws a dedicated message). -/
inductive NavError where
  | challenge (message : String)
  | searchBoxNotFound (message : String)
  deriving DecidableEq

/-- Result of processing the loaded results page: the outcome plus any
diagnostic artifacts saved along the way. -/
structure StepResult where
  outcome : Except NavError (List String)
  screenshotPath : Option String
  htmlDumpPath : Option String

/-- The results-page stage of `getGoogleResultsWithHumanSimulation`
(src/serp_extractor.js:653-717): check for a bot challenge (screenshot +
throw on detection), otherwise extract URLs; if zero URLs survive, save a
full-page screenshot and the raw HTML and return the empty list. -/
def resultsPageStep (content : String) (hrefs : List String) (maxResults : Nat) :
    StepResult :=
  if challengeDetected content then
    { outcome := Except.error (NavError.challenge "reCAPTCHA détecté"),
      screenshotPath := some "recaptcha_detected.png",
      htmlDumpPath := none }
  else
    let urls := extractUrls hrefs maxResults
    if urls.isEmpty then
      { outcome := Except.ok urls,
        screenshotPath := some "debug_google_results.png",
        htmlDumpPath := some "debug_page.html" }
    else
      { outcome := Except.ok urls, screenshotPath := none, htmlDumpPath := none }

/-- `CONFIG.fetch.maxRetries` (src/serp_extractor.js:69). -/
def fetchMaxRetries : Nat := 3

/-- `CONFIG.fetch.retryDelay` in milliseconds (src/serp_extractor.js:69). -/
def fetchRetryDelay : Nat := 1000

/-- A JavaScript error value as inspected by `isRetryableError`:
its message, its name, and an optional `status` property. -/
structure JsError where
  message : String
  name : String
  status : Option Nat
  deriving DecidableEq

/-- The substrings treated as retryable error codes
(src/serp_extractor.js:753). -/
def retryableErrorCodes : List String :=
  ["AbortError", "TimeoutError", "ECONNRESET", "ECONNREFUSED",
    "ETIMEDOUT", "ENOTFOUND", "ENETUNREACH"]

/-- The HTTP statuses treated as retryable (src/serp_extractor.js:753). -/
def retryableStatusCodes : List Nat := [408, 429, 500, 502, 503, 504]

/-- `isRetryableError` (src/serp_extractor.js:753): the message contains
one of the retryable codes, or the error name is AbortError, or the
(truthy) status is in the retryable status list. -/
def isRetryableError (e : JsError) : Bool :=
  retryableErrorCodes.any (fun code => jsIncludes e.message code) ||
    e.name == "AbortError" ||
    (match e.status with
      | some s => retryableStatusCodes.contains s
      | none => false)

/-- Result of one `page.goto` attempt inside
`fetchPageContentWithPlaywright`: a response with status, rendered HTML
and document title; a null response; or a thrown error. -/
inductive GotoResult where
  | response (status : Nat) (html : String) (title : String)
  | noResponse
  | thrown (e : JsError)

/-- One per-URL fetch outcome (the object literals returned at
src/serp_extractor.js:749 and 751). -/
structure FetchOutcome where
  success : Bool
  html : Option String
  title : Option String
  status : Option Nat
  error : Option String
  method : String

/-- Playwright `response.ok()`: status in the 2xx range. -/
def respOk (status : Nat) : Bool := 200 ≤ status && status ≤ 299

/-- The try-block of one fetch attempt (src/serp_extractor.js:743-749):
a thrown navigation error propagates to the catch; an ok response with
sufficient HTML yields the success outcome; too-short HTML throws the
dedicated error; a non-ok or null response yields an immediate failure
outcome without going through the catch. -/
def fetchTryBody (g : GotoResult) : Except JsError FetchOutcome :=
  match g with
  | GotoResult.thrown e => Except.error e
  | GotoResult.noResponse =>
      Except.ok { success := false, html := none, title := none,
                  status := none, error := none, method := "playwright" }
  | GotoResult.response status html title =>
      if respOk status then
        if html.length < 100 then
          Except.error { message := "Contenu HTML trop court ou vide",
                         name := "Error", status := none }
        else
          Except.ok { success := true, html := some html, title := some title,
                      status := some status, error := none, method := "playwright" }
      else
        Except.ok { success := false, html := none, title := none,
                    status := none, error := none, method := "playwright" }

/-- `fetchPageContentWithPlaywright` (src/serp_extractor.js:743-751),
driven by an oracle giving the result of the goto attempt at each retry
count.  Returns the final outcome together with the list of backoff
delays (`CONFIG.fetch.retryDelay * 2 ^ retryCount`) slept before each
recursive retry, in order. -/
def fetchPageContent (oracle : Nat → GotoResult) (retryCount : Nat) :
    FetchOutcome × List Nat :=
  match fetchTryBody (oracle retryCount) with
  | Except.ok out => (out, [])
  | Except.error e =>
      if h : retryCount < fetchMaxRetries ∧ isRetryableError e = true then
        let rest := fetchPageContent oracle (retryCount + 1)
        (rest.1, fetchRetryDelay * 2 ^ retryCount :: rest.2)
      else
        ({ success := false, html := none, title := none, status := none,
           error := some e.message, method := "playwright" }, [])
termination_by fetchMaxRetries - retryCount
decreasing_by
  obtain ⟨h1, -⟩ := h
  omega

/-- An oracle on which every goto attempt throws a retryable timeout. -/
def alwaysTimeoutOracle : Nat → GotoResult :=
  fun _ => GotoResult.thrown
    { message := "page.goto: TimeoutError exceeded", name := "TimeoutError",
      status := none }

/-- An oracle on which every goto attempt resolves with an HTTP 503
response (Playwright resolves `page.goto` on HTTP error statuses, it
does not throw). -/
def http503Oracle : Nat → GotoResult := fun _ => GotoResult.response 503 "" ""

/-- Case-insensitive match of a literal pattern at the front of the
input; returns the remaining input on success. -/
def matchLiteralCI : List Char → List Char → Option (List Char)
  | [], rest => some rest
  | _ :: _, [] => none
  | p :: ps, c :: cs => if c.toLower == p then matchLiteralCI ps cs else none

/-- One anchored attempt of the title regex
`<title[^>]*>([^<]+)<\/title>` (case-insensitive) at the current
position; returns the captured group. -/
def matchTitleAt (cs : List Char) : Option (List Char) :=
  match matchLiteralCI "<title".data cs with
  | none => none
  | some rest =>
    match rest.dropWhile (fun c => !(c == '>')) with
    | '>' :: body =>
      let group := body.takeWhile (fun c => !(c == '<'))
      if group.isEmpty then none
      else
        match matchLiteralCI "</title>".data (body.dropWhile (fun c => !(c == '<'))) with
        | some _ => some group
        | none => none
    | _ => none

/-- Leftmost match of the title regex, scanning position by position. -/
def findTitleChars : List Char → Option (List Char)
  | [] => none
  | c :: cs =>
    match matchTitleAt (c :: cs) with
    | some g => some g
    | none => findTitleChars cs

/-- `extractTitle` (src/serp_extractor.js:755): first match of the title
regex, trimmed and truncated to 200 characters; null on falsy input or
no match. -/
def extractTitle (html : Option String) : Option String :=
  match html with
  | none => none
  | some h =>
    if h == "" then none
    else
      match findTitleChars h.data with
      | some g => some ((String.mk g).trim.take 200)
      | none => none

/-- JavaScript truthiness test for an optional string (null or ""). -/
def jsFalsyStr : Option String → Bool
  | none => true
  | some s => s == ""

/-- The title patch of the per-URL loop (src/serp_extractor.js:763):
`if(content.success && !content.title) content.title =
extractTitle(content.html)`. -/
def patchTitle (content : FetchOutcome) : FetchOutcome :=
  if content.success && jsFalsyStr content.title then
    { content with title := extractTitle content.html }
  else content

/-- One entry of `organicResults` (src/serp_extractor.js:765). -/
structure SerpResult where
  position : Nat
  url : String
  title : Option String
  html : Option String
  success : Bool
  method : String
  status : Option Nat
  error : Option String
  htmlLength : Nat

/-- JavaScript `x || null` on an optional numeric field (0 is falsy). -/
def jsOrNullNat : Option Nat → Option Nat
  | some 0 => none
  | s => s

/-- JavaScript `x || null` on an optional string field ("" is falsy). -/
def jsOrNullStr : Option String → Option String
  | some "" => none
  | s => s

/-- Building one `organicResults` entry from the loop index and the
fetched content (src/serp_extractor.js:765). -/
def mkSerpResult (i : Nat) (url : String) (c : FetchOutcome) : SerpResult :=
  { position := i + 1, url := url, title := c.title, html := c.html,
    success := c.success, method := c.method, status := jsOrNullNat c.status,
    error := jsOrNullStr c.error,
    htmlLength := match c.html with | some h => h.length | none => 0 }

/-- The per-URL fetch of the pipeline loop (src/serp_extractor.js:761):
`fetchPageContentWithPlaywright(url)` starting at retry count 0, with
the network behaviour given per URL by the oracle. -/
def fetchForUrl (oracle : String → Nat → GotoResult) (url : String) : FetchOutcome :=
  (fetchPageContent (oracle url) 0).1

/-- The sequential per-URL loop of `extractWithHumanSimulation`
(src/serp_extractor.js:761-769), carrying the running index. -/
def runResultsAux (oracle : String → Nat → GotoResult) : Nat → List String → List SerpResult
  | _, [] => []
  | i, url :: rest =>
      mkSerpResult i url (patchTitle (fetchForUrl oracle url))
        :: runResultsAux oracle (i + 1) rest

/-- The full `organicResults` list produced for a URL list. -/
def runResults (oracle : String → Nat → GotoResult) (urls : List String) :
    List SerpResult :=
  runResultsAux oracle 0 urls

/-- The aggregated counters of the `stats` object
(src/serp_extractor.js:771). -/
structure RunStats where
  total : Nat
  successful : Nat
  failed : Nat
  playwrightMethod : Nat

/-- `stats` computation over the results list (src/serp_extractor.js:771). -/
def computeStats (results : List SerpResult) : RunStats :=
  { total := results.length,
    successful := (results.filter (fun r => r.success)).length,
    failed := (results.filter (fun r => !r.success)).length,
    playwrightMethod := (results.filter (fun r => r.method == "playwright")).length }

/-- A rendered page whose HTML passes the minimum-length check. -/
def okHtml : String := String.mk (List.replicate 150 'a')

/-- An oracle whose first goto attempt succeeds with HTTP 200. -/
def okOracle : Nat → GotoResult :=
  fun _ => GotoResult.response 200 okHtml "Example Domain"

/-- Resource events of one browser session: acquisitions in the try
block, releases in the finally block, and the final control transfer. -/
inductive ResEvent where
  | openBrowser
  | openContext
  | openPage
  | closeBrowser
  | closeContext
  | closePage
  | throwErr
  | retOk
  deriving DecidableEq, BEq

/-- Exit paths of `getGoogleResultsWithHumanSimulation`
(src/serp_extractor.js:472-741): each constructor names the last
statement of the try block reached before leaving it. -/
inductive NavExitPath where
  | proxyTestFail
  | launchFail
  | contextFail
  | newPageFail
  | navigationFail
  | searchBoxNotFound
  | challengeThrow
  | returnUrls
  deriving DecidableEq

/-- Which open events happened before the given exit: `browser`,
`context` and `page` are assigned in that order
(src/serp_extractor.js:501,527,529), so an exception at each stage
leaves the later handles null. -/
def navBodyEvents : NavExitPath → List ResEvent
  | NavExitPath.proxyTestFail => []
  | NavExitPath.launchFail => []
  | NavExitPath.contextFail => [ResEvent.openBrowser]
  | NavExitPath.newPageFail => [ResEvent.openBrowser, ResEvent.openContext]
  | _ => [ResEvent.openBrowser, ResEvent.openContext, ResEvent.openPage]

/-- The finally block (src/serp_extractor.js:736-740): close the page,
then the context, then the browser, each only if it was assigned. -/
def finallyEvents (body : List ResEvent) : List ResEvent :=
  (if body.contains ResEvent.openPage then [ResEvent.closePage] else []) ++
    (if body.contains ResEvent.openContext then [ResEvent.closeContext] else []) ++
    (if body.contains ResEvent.openBrowser then [ResEvent.closeBrowser] else [])

/-- Whether the exit path rethrows (src/serp_extractor.js:735) or
returns the URL list (src/serp_extractor.js:717). -/
def navFinalEvent : NavExitPath → ResEvent
  | NavExitPath.returnUrls => ResEvent.retOk
  | _ => ResEvent.throwErr

/-- The full event trace of one Navigation Controller run: try-block
events, then the finally block, then the control transfer. -/
def navRunTrace (p : NavExitPath) : List ResEvent :=
  navBodyEvents p ++ finallyEvents (navBodyEvents p) ++ [navFinalEvent p]

/-- Exit paths of one `fetchPageContentWithPlaywright` invocation
(src/serp_extractor.js:743-751); the catch block swallows the error and
returns an outcome, so every path ends in a return. -/
inductive FetchExitPath where
  | launchFail
  | contextFail
  | newPageFail
  | attemptThrown
  | returnOutcome
  deriving DecidableEq

/-- Open events of one fetch invocation before the given exit
(src/serp_extractor.js:743: browser, context, page assigned in order). -/
def fetchBodyEvents : FetchExitPath → List ResEvent
  | FetchExitPath.launchFail => []
  | FetchExitPath.contextFail => [ResEvent.openBrowser]
  | FetchExitPath.newPageFail => [ResEvent.openBrowser, ResEvent.openContext]
  | _ => [ResEvent.openBrowser, ResEvent.openContext, ResEvent.openPage]

/-- The full event trace of one Content Fetcher invocation: try/catch
events, then the same finally block, then the return. -/
def fetchRunTrace (p : FetchExitPath) : List ResEvent :=
  fetchBodyEvents p ++ finallyEvents (fetchBodyEvents p) ++ [ResEvent.retOk]

/-- Parsed CLI options (src/serp_extractor.js:394-416). -/
structure CliOptions where
  query : String
  outputFile : String
  maxResults : Nat
  verbose : Bool
  stealthMode : Bool
  deriving DecidableEq

/-- Result of `parseArguments`: either `process.exit(code)` (recording
whether the usage message was printed first) or the parsed options. -/
inductive ParseResult where
  | exitWith (code : Nat) (helpShown : Bool)
  | ok (opts : CliOptions)
  deriving DecidableEq

/-- The longest leading run of decimal digits, as a number; none if the
input does not start with a digit. -/
def leadingDigits (cs : List Char) : Option Nat :=
  let ds := cs.takeWhile Char.isDigit
  if ds.isEmpty then none
  else some (ds.foldl (fun acc c => acc * 10 + (c.toNat - 48)) 0)

/-- JavaScript `parseInt` restricted to radix 10: skip leading
whitespace, optional sign, then the longest digit prefix; NaN (none)
when no digit follows. -/
def jsParseInt (s : String) : Option Int :=
  match s.data.dropWhile Char.isWhitespace with
  | '-' :: rest => (leadingDigits rest).map (fun n => -(n : Int))
  | '+' :: rest => (leadingDigits rest).map (fun n => (n : Int))
  | cs => (leadingDigits cs).map (fun n => (n : Int))

/-- The argument loop of `parseArguments` (src/serp_extractor.js:400-412)
followed by the final query check (line 414), threading the accumulated
state.  Flags taking a value consume two tokens; a flag at the end of
the list without its value calls `process.exit(1)`; an unknown dashed
token calls `process.exit(1)`; bare tokens accumulate into the query. -/
def parseArgsLoop : List String → String → String → Nat → Bool → Bool → ParseResult
  | [], q, o, m, v, s =>
      if q.trim == "" then ParseResult.exitWith 1 false
      else ParseResult.ok { query := q.trim, outputFile := o, maxResults := m,
                            verbose := v, stealthMode := s }
  | "--query" :: val :: rest, _, o, m, v, s => parseArgsLoop rest val o m v s
  | ["--query"], _, _, _, _, _ => ParseResult.exitWith 1 false
  | "-q" :: val :: rest, _, o, m, v, s => parseArgsLoop rest val o m v s
  | ["-q"], _, _, _, _, _ => ParseResult.exitWith 1 false
  | "--output" :: val :: rest, q, _, m, v, s => parseArgsLoop rest q val m v s
  | ["--output"], _, _, _, _, _ => ParseResult.exitWith 1 false
  | "-o" :: val :: rest, q, _, m, v, s => parseArgsLoop rest q val m v s
  | ["-o"], _, _, _, _, _ => ParseResult.exitWith 1 false
  | "--max-results" :: val :: rest, q, o, _, v, s =>
      (match jsParseInt val with
        | none => ParseResult.exitWith 1 false
        | some n =>
            if n < 1 ∨ n > 10 then ParseResult.exitWith 1 false
            else parseArgsLoop rest q o n.toNat v s)
  | ["--max-results"], _, _, _, _, _ => ParseResult.exitWith 1 false
  | "-n" :: val :: rest, q, o, _, v, s =>
      (match jsParseInt val with
        | none => ParseResult.exitWith 1 false
        | some n =>
            if n < 1 ∨ n > 10 then ParseResult.exitWith 1 false
            else parseArgsLoop rest q o n.toNat v s)
  | ["-n"], _, _, _, _, _ => ParseResult.exitWith 1 false
  | "--verbose" :: rest, q, o, m, _, s => parseArgsLoop rest q o m true s
  | "-v" :: rest, q, o, m, _, s => parseArgsLoop rest q o m true s
  | "--no-stealth" :: rest, q, o, m, v, _ => parseArgsLoop rest q o m v false
  | "--headless" :: rest, q, o, m, v, s => parseArgsLoop rest q o m v s
  | "--ws" :: _ :: rest, q, o, m, v, s => parseArgsLoop rest q o m v s
  | ["--ws"], _, _, _, _, _ => ParseResult.exitWith 1 false
  | arg :: rest, q, o, m, v, s =>
      if strStartsWith arg "-" then ParseResult.exitWith 1 false
      else parseArgsLoop rest (if q == "" then arg else q ++ " " ++ arg) o m v s

/-- `parseArguments` (src/serp_extractor.js:387-417): `--help`, `-h` or
an empty argument list print the usage text and exit with status 0;
otherwise the loop runs with the defaults query "", output
`serp_corpus.json`, max-results 3, verbose off, stealth on. -/
def parseArguments (args : List String) : ParseResult :=
  if args.contains "--help" || args.contains "-h" || args.length == 0 then
    ParseResult.exitWith 0 true
  else
    parseArgsLoop args "" "serp_corpus.json" 3 false true

/-- Every member of the extracted list passed the `keepUrl` filter. -/
theorem keepUrl_of_mem_extractUrls {hrefs : List String} {maxResults : Nat} {u : String}
    (hu : u ∈ extractUrls hrefs maxResults) : keepUrl u = true := by
  have h1 : u ∈ (hrefs.take (maxResults * 2)).filter keepUrl :=
    (List.take_sublist _ _).subset hu
  exact List.of_mem_filter h1

/-- C3: every extracted ResultURL list has length at most the requested
max, contains only `http`-prefixed URLs, excludes the search engine's own
domain and the fixed exclusion list (video / maps / translate), is an
order-preserving sublist of the encountered hrefs, and equals the
truncate-to-2×max / filter / truncate-to-max pipeline. -/
theorem extractUrls_invariants (hrefs : List String) (maxResults : Nat) :
    (extractUrls hrefs maxResults).length ≤ maxResults ∧
    (extractUrls hrefs maxResults).all (fun u => strStartsWith u "http") = true ∧
    (extractUrls hrefs maxResults).all (fun u => !(jsIncludes u "google.com")) = true ∧
    (extractUrls hrefs maxResults).all (fun u => !(jsIncludes u "youtube.com")) = true ∧
    (extractUrls hrefs maxResults).all (fun u => !(jsIncludes u "maps.google.com")) = true ∧
    (extractUrls hrefs maxResults).all (fun u => !(jsIncludes u "translate.google.com")) = true ∧
    (extractUrls hrefs maxResults).Sublist hrefs ∧
    extractUrls hrefs maxResults
      = ((hrefs.take (maxResults * 2)).filter keepUrl).take maxResults := by
  refine ⟨List.length_take_le _ _, ?_, ?_, ?_, ?_, ?_, ?_, rfl⟩
  · refine List.all_eq_true.mpr fun u hu => ?_
    have hk := keepUrl_of_mem_extractUrls hu
    simp only [keepUrl, Bool.and_eq_true] at hk
    exact hk.1.1.1.1.2
  · refine List.all_eq_true.mpr fun u hu => ?_
    have hk := keepUrl_of_mem_extractUrls hu
    simp only [keepUrl, Bool.and_eq_true] at hk
    exact hk.1.1.1.2
  · refine List.all_eq_true.mpr fun u hu => ?_
    have hk := keepUrl_of_mem_extractUrls hu
    simp only [keepUrl, Bool.and_eq_true] at hk
    exact hk.1.1.2
  · refine List.all_eq_true.mpr fun u hu => ?_
    have hk := keepUrl_of_mem_extractUrls hu
    simp only [keepUrl, Bool.and_eq_true] at hk
    exact hk.1.2
  · refine List.all_eq_true.mpr fun u hu => ?_
    have hk := keepUrl_of_mem_extractUrls hu
    simp only [keepUrl, Bool.and_eq_true] at hk
    exact hk.2
  · exact ((List.take_sublist _ _).trans (List.filter_sublist _)).trans
      (List.take_sublist _ _)

/-- C10: the filter excludes any URL containing the substring
`google.com` anywhere in the URL string, not only URLs whose host is the
search engine's host. -/
theorem extractUrls_drops_google_mentions (hrefs : List String) (maxResults : Nat)
    (u : String) (hmention : jsIncludes u "google.com" = true) :
    u ∉ extractUrls hrefs maxResults := by
  intro hu
  have hk := keepUrl_of_mem_extractUrls hu
  simp only [keepUrl, Bool.and_eq_true] at hk
  have hg := hk.1.1.1.2
  simp only [Bool.not_eq_true'] at hg
  rw [hg] at hmention
  exact Bool.false_ne_true hmention

/-- Witness for C10: a concrete third-party URL whose path mentions
google.com is dropped from the extracted list. -/
theorem extractUrls_drops_google_mentions_witness :
    jsIncludes thirdPartyUrl "google.com" = true ∧
    thirdPartyUrl ∉ extractUrls [thirdPartyUrl] 3 :=
  ⟨by decide, extractUrls_drops_google_mentions [thirdPartyUrl] 3 thirdPartyUrl (by decide)⟩

/-- Counterexample to C2: when the misspell branch fires on a mapped
character and the correction roll fails (probability 0.1 times 0.2), the
final field content is the typo text, not the intended text. -/
theorem typeHumanLike_counterexample :
    typeHumanLike "hello world" ⟨true, 0, false⟩ = some "gello world" ∧
    ("gello world" : String) ≠ "hello world" :=
  ⟨rfl, by decide⟩

/-- C2 (amended): the final field content equals the intended text
whenever the misspell branch does not fire, or it fires at a valid index
and the correction branch fires. -/
theorem typeHumanLike_restores_text (text : String) (r : TypoRandom)
    (h : r.misspellRoll = false ∨
      (r.typoIndex < text.data.length ∧ r.correctRoll = true)) :
    typeHumanLike text r = some text := by
  unfold typeHumanLike
  rcases h with h | ⟨hlt, hc⟩
  · simp [h]
  · cases hm : r.misspellRoll
    · simp
    · have hg : text.data.get? r.typoIndex
          = some (text.data.get ⟨r.typoIndex, hlt⟩) := List.get?_eq_get hlt
      simp only [sometimesMisspell, Bool.true_and, if_pos rfl, hg]
      cases typosMap (text.data.get ⟨r.typoIndex, hlt⟩).toLower <;>
        simp [sometimesCorrect, hc]

/-- Witness for C2 (amended): typing "hello world" with the misspell
branch firing at index 0 and the correction branch firing leaves exactly
"hello world" in the field. -/
theorem typeHumanLike_restores_text_witness :
    typeHumanLike "hello world" ⟨true, 3, true⟩ = some "hello world" :=
  typeHumanLike_restores_text "hello world" ⟨true, 3, true⟩
    (Or.inr ⟨by decide, rfl⟩)

/-- Counterexample to C4: a page body containing a challenge term only in
a different letter case ("ROBOT") is an indicator under the spec's
case-insensitive reading, yet the code does not detect it, takes no
challenge screenshot, and returns an empty success. -/
theorem challenge_case_sensitivity_counterexample :
    challengeIndicatorSpecCI "ROBOT check" = true ∧
    challengeDetected "ROBOT check" = false ∧
    (resultsPageStep "ROBOT check" [] 3).outcome = Except.ok [] ∧
    (resultsPageStep "ROBOT check" [] 3).screenshotPath ≠ some "recaptcha_detected.png" := by
  refine ⟨by decide, by decide, rfl, by decide⟩

/-- C4 (amended): whenever the page content contains one of the literal
terms reCAPTCHA / robot / captcha case-sensitively, the controller saves
a diagnostic screenshot and fails with the dedicated challenge error —
it never returns a success in that case. -/
theorem resultsPageStep_challenge (content : String) (hrefs : List String)
    (maxResults : Nat) (h : challengeDetected content = true) :
    (resultsPageStep content hrefs maxResults).outcome
        = Except.error (NavError.challenge "reCAPTCHA détecté") ∧
    (resultsPageStep content hrefs maxResults).screenshotPath
        = some "recaptcha_detected.png" := by
  simp [resultsPageStep, h]

/-- Witness for C4 (amended): a concrete challenge body triggers the
dedicated error and the screenshot artifact. -/
theorem resultsPageStep_challenge_witness :
    (resultsPageStep "please solve this captcha" [] 3).outcome
        = Except.error (NavError.challenge "reCAPTCHA détecté") ∧
    (resultsPageStep "please solve this captcha" [] 3).screenshotPath
        = some "recaptcha_detected.png" :=
  resultsPageStep_challenge "please solve this captcha" [] 3 (by decide)

/-- C5: when no challenge is detected and zero URLs survive extraction
and filtering, the full-page screenshot and the raw-HTML dump are both
saved and the step returns the empty result list rather than an error. -/
theorem resultsPageStep_soft_empty (content : String) (hrefs : List String)
    (maxResults : Nat) (hc : challengeDetected content = false)
    (he : extractUrls hrefs maxResults = []) :
    (resultsPageStep content hrefs maxResults).outcome = Except.ok [] ∧
    (resultsPageStep content hrefs maxResults).screenshotPath
        = some "debug_google_results.png" ∧
    (resultsPageStep content hrefs maxResults).htmlDumpPath
        = some "debug_page.html" := by
  simp [resultsPageStep, hc, he]

/-- Witness for C5: a concrete challenge-free page with no surviving URLs
yields the empty result set plus both diagnostic artifacts. -/
theorem resultsPageStep_soft_empty_witness :
    (resultsPageStep "no results here" [] 3).outcome = Except.ok [] ∧
    (resultsPageStep "no results here" [] 3).screenshotPath
        = some "debug_google_results.png" ∧
    (resultsPageStep "no results here" [] 3).htmlDumpPath
        = some "debug_page.html" :=
  resultsPageStep_soft_empty "no results here" [] 3 (by decide) (by decide)

/-- One-step unfolding of `fetchPageContent`. -/
theorem fetchPageContent_unfold (oracle : Nat → GotoResult) (retryCount : Nat) :
    fetchPageContent oracle retryCount =
      match fetchTryBody (oracle retryCount) with
      | Except.ok out => (out, [])
      | Except.error e =>
          if retryCount < fetchMaxRetries ∧ isRetryableError e = true then
            ((fetchPageContent oracle (retryCount + 1)).1,
              fetchRetryDelay * 2 ^ retryCount
                :: (fetchPageContent oracle (retryCount + 1)).2)
          else
            ({ success := false, html := none, title := none, status := none,
               error := some e.message, method := "playwright" }, []) := by
  rw [fetchPageContent]
  cases fetchTryBody (oracle retryCount) with
  | ok out => rfl
  | error e =>
      by_cases hc : retryCount < fetchMaxRetries ∧ isRetryableError e = true
      · simp [hc]
      · simp [hc]

/-- Induction workhorse for the retry policy: bounds, exact delay values,
the retry condition, and the exhaustion outcome, by induction on the
remaining retry budget. -/
theorem fetchRetry_aux (oracle : Nat → GotoResult) :
    ∀ (d rc : Nat), fetchMaxRetries - rc ≤ d →
    (fetchPageContent oracle rc).2.length ≤ fetchMaxRetries - rc ∧
    (fetchPageContent oracle rc).2
      = (List.range (fetchPageContent oracle rc).2.length).map
          (fun i => fetchRetryDelay * 2 ^ (rc + i)) ∧
    ((fetchPageContent oracle rc).2 ≠ [] ↔
      ∃ e, fetchTryBody (oracle rc) = Except.error e ∧
        rc < fetchMaxRetries ∧ isRetryableError e = true) ∧
    (∀ e, fetchTryBody (oracle (rc + (fetchPageContent oracle rc).2.length))
          = Except.error e →
      (fetchPageContent oracle rc).1.success = false ∧
      (fetchPageContent oracle rc).1.error = some e.message) := by
  intro d
  induction d with
  | zero =>
      intro rc hd
      cases htb : fetchTryBody (oracle rc) with
      | ok out =>
          simp only [fetchPageContent_unfold oracle rc, htb]
          refine ⟨by simp, by simp, by simp, ?_⟩
          intro e he
          simp only [List.length_nil, Nat.add_zero, htb] at he
          simp at he
      | error e =>
          have hguard : ¬ (rc < fetchMaxRetries ∧ isRetryableError e = true) := by
            intro hcontra
            omega
          simp only [fetchPageContent_unfold oracle rc, htb, if_neg hguard]
          refine ⟨by simp, by simp, ?_, ?_⟩
          · apply iff_of_false
            · simp
            · rintro ⟨e2, he2, hlt, hr⟩
              cases he2
              exact hguard ⟨hlt, hr⟩
          · intro e2 he2
            simp only [List.length_nil, Nat.add_zero, htb] at he2
            cases he2
            simp
  | succ d ih =>
      intro rc hd
      cases htb : fetchTryBody (oracle rc) with
      | ok out =>
          simp only [fetchPageContent_unfold oracle rc, htb]
          refine ⟨by simp, by simp, by simp, ?_⟩
          intro e he
          simp only [List.length_nil, Nat.add_zero, htb] at he
          simp at he
      | error e =>
          by_cases hc : rc < fetchMaxRetries ∧ isRetryableError e = true
          · obtain ⟨ihA, ihB, ihC, ihD⟩ := ih (rc + 1) (by omega)
            simp only [fetchPageContent_unfold oracle rc, htb, if_pos hc]
            refine ⟨?_, ?_, ?_, ?_⟩
            · simp only [List.length_cons]
              omega
            · simp only [List.length_cons, List.range_succ_eq_map,
                List.map_cons, List.map_map]
              congr 1
              conv_lhs => rw [ihB]
              apply List.map_congr_left
              intro i hi
              simp only [Function.comp_apply]
              have hrw : rc + 1 + i = rc + Nat.succ i := by omega
              rw [hrw]
            · apply iff_of_true
              · exact List.cons_ne_nil _ _
              · exact ⟨e, by simp [htb], hc.1, hc.2⟩
            · intro e2 he2
              simp only [List.length_cons] at he2
              rw [show rc + ((fetchPageContent oracle (rc + 1)).2.length + 1)
                  = rc + 1 + (fetchPageContent oracle (rc + 1)).2.length
                  from by omega] at he2
              exact ihD e2 he2
          · simp only [fetchPageContent_unfold oracle rc, htb, if_neg hc]
            refine ⟨by simp, by simp, ?_, ?_⟩
            · apply iff_of_false
              · simp
              · rintro ⟨e2, he2, hlt, hr⟩
                cases he2
                exact hc ⟨hlt, hr⟩
            · intro e2 he2
              simp only [List.length_nil, Nat.add_zero, htb] at he2
              cases he2
              simp

/-- C6 (amended): a thrown fetch failure is retried exactly when
`isRetryableError` classifies it retryable and the retry ceiling
`fetchMaxRetries` has not been reached; the k-th retry is delayed by
`retryDelay * 2 ^ k`, so successive delays strictly increase; at most
`fetchMaxRetries` retries happen, after which a failure outcome carrying
the error message is returned. -/
theorem fetchRetryPolicy (oracle : Nat → GotoResult) (rc : Nat) :
    (fetchPageContent oracle rc).2.length ≤ fetchMaxRetries ∧
    (fetchPageContent oracle rc).2
      = (List.range (fetchPageContent oracle rc).2.length).map
          (fun i => fetchRetryDelay * 2 ^ (rc + i)) ∧
    (fetchPageContent oracle rc).2.Pairwise (· < ·) ∧
    ((fetchPageContent oracle rc).2 ≠ [] ↔
      ∃ e, fetchTryBody (oracle rc) = Except.error e ∧
        rc < fetchMaxRetries ∧ isRetryableError e = true) ∧
    (∀ e, fetchTryBody (oracle (rc + (fetchPageContent oracle rc).2.length))
          = Except.error e →
      (fetchPageContent oracle rc).1.success = false ∧
      (fetchPageContent oracle rc).1.error = some e.message) := by
  obtain ⟨hA, hB, hC, hD⟩ := fetchRetry_aux oracle fetchMaxRetries rc (by omega)
  refine ⟨by omega, hB, ?_, hC, hD⟩
  rw [hB]
  refine List.pairwise_map.mpr ((List.pairwise_lt_range _).imp ?_)
  intro i j hij
  have hpow : (2 : Nat) ^ (rc + i) < 2 ^ (rc + j) :=
    Nat.pow_lt_pow_right one_lt_two (by omega)
  have hpos : 0 < fetchRetryDelay := by decide
  exact mul_lt_mul_of_pos_left hpow hpos

/-- Witness for C6 (amended): on an oracle that always times out, the
exhaustion branch fires and the run reports failure with the timeout
message. -/
theorem fetchRetryPolicy_witness :
    (fetchPageContent alwaysTimeoutOracle 0).1.success = false ∧
    (fetchPageContent alwaysTimeoutOracle 0).1.error
      = some "page.goto: TimeoutError exceeded" :=
  (fetchRetryPolicy alwaysTimeoutOracle 0).2.2.2.2
    { message := "page.goto: TimeoutError exceeded", name := "TimeoutError",
      status := none } rfl

/-- Counterexample to C6 as stated: an attempt that fails with an HTTP
503 response — a status the retry predicate classifies as retryable — is
not retried at all: Playwright resolves rather than throws, so the
failure bypasses the catch-based retry path entirely. -/
theorem fetch_noRetry_on_http_error_counterexample :
    (fetchPageContent http503Oracle 0).1.success = false ∧
    (fetchPageContent http503Oracle 0).2 = [] ∧
    isRetryableError { message := "", name := "Error", status := some 503 } = true := by
  have h0 : fetchTryBody (http503Oracle 0)
      = Except.ok { success := false, html := none, title := none,
                    status := none, error := none, method := "playwright" } := rfl
  refine ⟨?_, ?_, by decide⟩
  · simp only [fetchPageContent_unfold http503Oracle 0, h0]
  · simp only [fetchPageContent_unfold http503Oracle 0, h0]

/-- Every successful try-body outcome carries method "playwright". -/
theorem fetchTryBody_method (g : GotoResult) (out : FetchOutcome)
    (h : fetchTryBody g = Except.ok out) : out.method = "playwright" := by
  cases g with
  | thrown e => simp [fetchTryBody] at h
  | noResponse =>
      simp only [fetchTryBody] at h
      cases h
      rfl
  | response status html title =>
      simp only [fetchTryBody] at h
      split at h
      · split at h
        · simp at h
        · cases h
          rfl
      · cases h
        rfl

/-- Every fetch outcome carries method "playwright", whatever the oracle
does, at every retry count. -/
theorem fetchPageContent_method (oracle : Nat → GotoResult) (rc : Nat) :
    (fetchPageContent oracle rc).1.method = "playwright" := by
  suffices h : ∀ d rc, fetchMaxRetries - rc ≤ d →
      (fetchPageContent oracle rc).1.method = "playwright" from
    h fetchMaxRetries rc (by omega)
  intro d
  induction d with
  | zero =>
      intro rc hd
      cases htb : fetchTryBody (oracle rc) with
      | ok out =>
          simp only [fetchPageContent_unfold oracle rc, htb]
          exact fetchTryBody_method _ _ htb
      | error e =>
          have hguard : ¬ (rc < fetchMaxRetries ∧ isRetryableError e = true) := by
            intro hcontra
            omega
          simp only [fetchPageContent_unfold oracle rc, htb, if_neg hguard]
  | succ d ih =>
      intro rc hd
      cases htb : fetchTryBody (oracle rc) with
      | ok out =>
          simp only [fetchPageContent_unfold oracle rc, htb]
          exact fetchTryBody_method _ _ htb
      | error e =>
          by_cases hc : rc < fetchMaxRetries ∧ isRetryableError e = true
          · simp only [fetchPageContent_unfold oracle rc, htb, if_pos hc]
            exact ih (rc + 1) (by omega)
          · simp only [fetchPageContent_unfold oracle rc, htb, if_neg hc]

/-- The title patch does not change the method field. -/
theorem patchTitle_method (c : FetchOutcome) : (patchTitle c).method = c.method := by
  unfold patchTitle
  split <;> rfl

/-- C1 (amended): the Content Fetcher has a single tier — the
browser-rendered Playwright fetch — and every outcome it produces, and
every entry of the aggregated results list, records method
"playwright"; no `lightweight` tier exists. -/
theorem contentFetcher_single_tier :
    (∀ (oracle : Nat → GotoResult) (rc : Nat),
      (fetchPageContent oracle rc).1.method = "playwright") ∧
    (∀ (oracle : String → Nat → GotoResult) (urls : List String),
      (runResults oracle urls).all (fun r => r.method == "playwright") = true) := by
  refine ⟨fetchPageContent_method, ?_⟩
  intro oracle urls
  suffices h : ∀ (i : Nat) (urls : List String),
      (runResultsAux oracle i urls).all (fun r => r.method == "playwright") = true from
    h 0 urls
  intro i urls
  induction urls generalizing i with
  | nil => rfl
  | cons url rest ih =>
      simp only [runResultsAux, List.all_cons, Bool.and_eq_true]
      refine ⟨?_, ih (i + 1)⟩
      have hm : (mkSerpResult i url (patchTitle (fetchForUrl oracle url))).method
          = (patchTitle (fetchForUrl oracle url)).method := rfl
      rw [hm, patchTitle_method]
      have hf : (fetchForUrl oracle url).method = "playwright" :=
        fetchPageContent_method (oracle url) 0
      rw [hf]
      rfl

set_option maxRecDepth 4000 in
/-- Counterexample to C1 as stated: the very first fetch attempt is the
browser-rendered Playwright path (there is no lightweight tier to try
first), and the recorded method is the string "playwright", which is
neither of the two values the claim says the method field ranges over. -/
theorem contentFetcher_single_tier_counterexample :
    (fetchPageContent okOracle 0).1.success = true ∧
    (fetchPageContent okOracle 0).1.method = "playwright" ∧
    ("playwright" : String) ≠ "lightweight" ∧
    ("playwright" : String) ≠ "browser-rendered" := by
  have h0 : fetchTryBody (okOracle 0)
      = Except.ok { success := true, html := some okHtml,
                    title := some "Example Domain", status := some 200,
                    error := none, method := "playwright" } := by
    have hlen : ¬ (okHtml.length < 100) := by decide
    simp only [fetchTryBody, okOracle, respOk]
    norm_num [hlen]
  refine ⟨?_, ?_, by decide, by decide⟩
  · simp only [fetchPageContent_unfold okOracle 0, h0]
  · simp only [fetchPageContent_unfold okOracle 0, h0]

/-- The loop emits URLs in the order received. -/
theorem runResultsAux_map_url (oracle : String → Nat → GotoResult) :
    ∀ (i : Nat) (urls : List String),
      (runResultsAux oracle i urls).map (fun r => r.url) = urls := by
  intro i urls
  induction urls generalizing i with
  | nil => rfl
  | cons url rest ih =>
      simp only [runResultsAux, List.map_cons]
      exact congrArg (url :: ·) (ih (i + 1))

/-- The loop numbers positions consecutively starting at the index plus
one. -/
theorem runResultsAux_map_position (oracle : String → Nat → GotoResult) :
    ∀ (i : Nat) (urls : List String),
      (runResultsAux oracle i urls).map (fun r => r.position)
        = List.range' (i + 1) urls.length := by
  intro i urls
  induction urls generalizing i with
  | nil => rfl
  | cons url rest ih =>
      simp only [runResultsAux, List.map_cons, List.length_cons, List.range'_succ]
      exact congrArg ((i + 1) :: ·) (ih (i + 1))

/-- Splitting a list by a boolean predicate preserves total length. -/
theorem length_filter_add_length_filter_not {α : Type} (l : List α) (p : α → Bool) :
    (l.filter p).length + (l.filter (fun a => !(p a))).length = l.length := by
  induction l with
  | nil => rfl
  | cons a t ih =>
      by_cases h : p a = true
      · simp [List.filter, h, ← ih]
        omega
      · have h2 : p a = false := by
          cases hpa : p a
          · rfl
          · exact absurd hpa h
        simp [List.filter, h2, ← ih]
        omega

/-- C8: the FetchOutcome list preserves the ResultURL list exactly — same
length and order (mapping back to the URL list), positions numbered
`i + 1` in order — and the aggregated stats satisfy
`total = length organicResults` and `successful + failed = total`. -/
theorem runReport_alignment (oracle : String → Nat → GotoResult) (urls : List String) :
    (runResults oracle urls).map (fun r => r.url) = urls ∧
    (runResults oracle urls).length = urls.length ∧
    (runResults oracle urls).map (fun r => r.position)
      = List.range' 1 urls.length ∧
    (computeStats (runResults oracle urls)).total = (runResults oracle urls).length ∧
    (computeStats (runResults oracle urls)).successful
        + (computeStats (runResults oracle urls)).failed
      = (computeStats (runResults oracle urls)).total := by
  refine ⟨runResultsAux_map_url oracle 0 urls, ?_, ?_, rfl, ?_⟩
  · have h := congrArg List.length (runResultsAux_map_url oracle 0 urls)
    simpa using h
  · exact runResultsAux_map_position oracle 0 urls
  · exact length_filter_add_length_filter_not _ _

/-- C7: on every exit path of a Navigation Controller run and of a
Content Fetcher invocation, each of page, context and browser is closed
exactly as many times as it was opened (at most once), and every close
happens before control leaves the function (the throw or return is the
last event of the trace). -/
theorem resourceTeardown_once :
    (∀ p : NavExitPath,
      (navRunTrace p).count ResEvent.closePage
          = (navRunTrace p).count ResEvent.openPage ∧
      (navRunTrace p).count ResEvent.closeContext
          = (navRunTrace p).count ResEvent.openContext ∧
      (navRunTrace p).count ResEvent.closeBrowser
          = (navRunTrace p).count ResEvent.openBrowser ∧
      (navRunTrace p).count ResEvent.openPage ≤ 1 ∧
      (navRunTrace p).count ResEvent.openContext ≤ 1 ∧
      (navRunTrace p).count ResEvent.openBrowser ≤ 1 ∧
      (navRunTrace p).getLast? = some (navFinalEvent p)) ∧
    (∀ p : FetchExitPath,
      (fetchRunTrace p).count ResEvent.closePage
          = (fetchRunTrace p).count ResEvent.openPage ∧
      (fetchRunTrace p).count ResEvent.closeContext
          = (fetchRunTrace p).count ResEvent.openContext ∧
      (fetchRunTrace p).count ResEvent.closeBrowser
          = (fetchRunTrace p).count ResEvent.openBrowser ∧
      (fetchRunTrace p).count ResEvent.openPage ≤ 1 ∧
      (fetchRunTrace p).count ResEvent.openContext ≤ 1 ∧
      (fetchRunTrace p).count ResEvent.openBrowser ≤ 1 ∧
      (fetchRunTrace p).getLast? = some ResEvent.retOk) := by
  constructor
  · intro p
    cases p <;> exact ⟨by decide, by decide, by decide, by decide, by decide,
      by decide, by decide⟩
  · intro p
    cases p <;> exact ⟨by decide, by decide, by decide, by decide, by decide,
      by decide, by decide⟩

/-- Loop invariant of the argument parser: starting from an in-range
max-results accumulator, every exit is `process.exit(1)` with no usage
message, and every successful parse has a nonempty query and max-results
within 1..10. -/
theorem parseArgsLoop_invariant :
    ∀ (args : List String) (q o : String) (m : Nat) (v s : Bool),
      1 ≤ m → m ≤ 10 →
      ((∀ code help, parseArgsLoop args q o m v s = ParseResult.exitWith code help →
          code = 1 ∧ help = false) ∧
        (∀ opts, parseArgsLoop args q o m v s = ParseResult.ok opts →
          opts.query ≠ "" ∧ 1 ≤ opts.maxResults ∧ opts.maxResults ≤ 10)) := by
  intro args q o m v s
  induction args, q, o, m, v, s using parseArgsLoop.induct
  all_goals intro h1 h10
  all_goals simp only [parseArgsLoop]
  all_goals try exact ⟨fun code help heq => by cases heq; exact ⟨rfl, rfl⟩,
    fun opts hopts => by cases hopts⟩
  all_goals try (rename_i ih; exact ih h1 h10)
  case case1 =>
    rename_i h
    rw [if_pos h]
    exact ⟨fun code help heq => by cases heq; exact ⟨rfl, rfl⟩,
      fun opts hopts => by cases hopts⟩
  case case2 =>
    rename_i h
    rw [if_neg h]
    refine ⟨fun code help heq => (by cases heq), fun opts hopts => ?_⟩
    cases hopts
    refine ⟨?_, h1, h10⟩
    simpa using h
  case case11 =>
    rename_i hm
    simp only [hm]
    exact ⟨fun code help heq => by cases heq; exact ⟨rfl, rfl⟩,
      fun opts hopts => by cases hopts⟩
  case case12 =>
    rename_i n hm hcond
    simp only [hm]
    rw [if_pos hcond]
    exact ⟨fun code help heq => by cases heq; exact ⟨rfl, rfl⟩,
      fun opts hopts => by cases hopts⟩
  case case13 =>
    rename_i n hm hcond ih
    simp only [hm]
    rw [if_neg hcond]
    exact ih (by omega) (by omega)
  case case15 =>
    rename_i hm
    simp only [hm]
    exact ⟨fun code help heq => by cases heq; exact ⟨rfl, rfl⟩,
      fun opts hopts => by cases hopts⟩
  case case16 =>
    rename_i n hm hcond
    simp only [hm]
    rw [if_pos hcond]
    exact ⟨fun code help heq => by cases heq; exact ⟨rfl, rfl⟩,
      fun opts hopts => by cases hopts⟩
  case case17 =>
    rename_i n hm hcond ih
    simp only [hm]
    rw [if_neg hcond]
    exact ih (by omega) (by omega)
  case case25 =>
    rename_i h
    rw [if_pos h]
    exact ⟨fun code help heq => by cases heq; exact ⟨rfl, rfl⟩,
      fun opts hopts => by cases hopts⟩
  case case26 =>
    rename_i h ih
    rw [if_neg h]
    exact ih h1 h10

/-- C9 (amended): every `process.exit` of the argument parser either
prints the usage message and exits with status 0 (`--help`, `-h`, or an
empty argument list) or exits with status 1 without printing the usage
message (missing query among flags, a flag missing its value, an
unknown dashed flag, or a non-numeric or out-of-range max-results); a
successful parse always carries a nonempty query and max-results within
1..10. -/
theorem parseArguments_exit_discipline (args : List String) :
    (∀ code help, parseArguments args = ParseResult.exitWith code help →
      (code = 0 ∧ help = true) ∨ (code = 1 ∧ help = false)) ∧
    (∀ opts, parseArguments args = ParseResult.ok opts →
      opts.query ≠ "" ∧ 1 ≤ opts.maxResults ∧ opts.maxResults ≤ 10) := by
  unfold parseArguments
  split
  · exact ⟨fun code help heq => by cases heq; exact Or.inl ⟨rfl, rfl⟩,
      fun opts hopts => by cases hopts⟩
  · obtain ⟨hA, hB⟩ :=
      parseArgsLoop_invariant args "" "serp_corpus.json" 3 false true
        (by omega) (by omega)
    exact ⟨fun code help heq => Or.inr (hA code help heq), hB⟩

/-- Witness for C9 (amended): the empty invocation exits through the
status-0 usage branch. -/
theorem parseArguments_exit_discipline_witness :
    ((0 : Nat) = 0 ∧ true = true) ∨ ((0 : Nat) = 1 ∧ true = false) :=
  (parseArguments_exit_discipline []).1 0 true rfl

/-- Counterexample to C9 as stated: an empty argument list (missing
query) exits with status 0, not a non-zero status; and an out-of-range
max-results exits with status 1 but without printing the usage message. -/
theorem parseArguments_counterexample :
    parseArguments [] = ParseResult.exitWith 0 true ∧
    parseArguments ["foo", "--max-results", "11"] = ParseResult.exitWith 1 false :=
  ⟨rfl, rfl⟩
